import Mathlib

/-!
Shallow embedding of the elizaos plugin-x402 payment components, and proofs
about them.  The embedding follows the TypeScript sources:

* `src/typescript/storage/memory.ts`  — in-memory payment ledger
* `src/typescript/storage/sqlite.ts`  — SQLite ledger (SQL WHERE clauses)
* the PostgreSQL ledger (same WHERE clauses as the SQLite one)
* the policy engine (`PolicyEngine`)
* the circuit breaker (`CircuitBreaker`)
* the facilitator client (`verifyPaymentWithFacilitator`, `settlePaymentWithFacilitator`)
* the client fetch wrapper (`createFetchWithPayment`)
* the server paywall middleware (`createPaywallMiddleware`)

Modelling conventions:

* JavaScript `bigint` amounts become `Int` (exact integers; `bigint` division
  truncates toward zero, which is `Int.tdiv`).
* ISO-8601 `createdAt` timestamps compare lexicographically exactly as they
  compare chronologically, so timestamps are modelled as epoch milliseconds
  (`Int`) and the string comparisons of the sources become `Int` comparisons.
* Optional TypeScript parameters become `Option` arguments; JavaScript
  truthiness (`if (scope)`, `if (windowMs)`) is translated explicitly, so a
  `some ""` string or a `some 0` number behaves like the falsy value it is
  in the source.
* Network and crypto effects (HTTP fetch outcomes, signing outcomes, the
  base64/JSON encoders) are supplied as explicit environment values; the
  control flow around them is translated from the source.
-/

namespace X402

/-! ## Data model (src/types.ts) -/

/-- Direction of a payment relative to this agent. -/
inductive PaymentDirection where
  | outgoing
  | incoming
deriving DecidableEq, Repr

/-- Payment status. -/
inductive PaymentStatus where
  | pending
  | confirmed
  | failed
  | refunded
deriving DecidableEq, Repr

/-- A single payment record persisted to storage (`PaymentRecord`).
`amount` is USDC base units (bigint); `createdAt` is the record timestamp
(epoch milliseconds standing for the ISO-8601 string). -/
structure PaymentRecord where
  id : String
  direction : PaymentDirection
  counterparty : String
  amount : Int
  network : String
  txHash : String
  resource : String
  status : PaymentStatus
  createdAt : Int
  metadata : List (String × String)
deriving DecidableEq, Repr

/-- Filters for querying payment records (`PaymentFilters`). -/
structure PaymentFilters where
  direction : Option PaymentDirection := none
  counterparty : Option String := none
  status : Option PaymentStatus := none
  network : Option String := none
  since : Option Int := none
  untilTs : Option Int := none
  limit : Option Nat := none
  offset : Option Nat := none
deriving Repr

/-- `toLowerCase()` (for the ASCII alphabet of addresses and header names),
written as a map over the character list so that it evaluates by kernel
reduction. -/
def lowerString (s : String) : String := String.mk (s.data.map Char.toLower)

/-! ## In-memory storage (src/storage/memory.ts)

The storage state is the list of records in insertion order.  `getTotal`
and `getCount` iterate the list with `continue`-style skips, modelled as a
left fold whose step function reproduces the skip conditions in order. -/

/-- `windowMs ? new Date(Date.now() - windowMs).toISOString() : undefined`:
the cutoff only exists when `windowMs` is truthy (present and nonzero). -/
def windowCutoff (now : Int) (windowMs : Option Int) : Option Int :=
  match windowMs with
  | some w => if w == 0 then none else some (now - w)
  | none => none

/-- `if (cutoff && r.createdAt < cutoff) continue` (the ISO strings compare
like the instants they denote). -/
def skipByCutoff (cutoff : Option Int) (createdAt : Int) : Bool :=
  match cutoff with
  | some c => createdAt < c
  | none => false

/-- `if (scope && r.counterparty !== scope) continue`: an empty scope string
is falsy, so it never filters. -/
def skipByScope (scope : Option String) (counterparty : String) : Bool :=
  match scope with
  | some s => !(s == "") && !(counterparty == s)
  | none => false

/-- One iteration of the `getTotal` loop of `MemoryPaymentStorage`. -/
def totalStep (direction : PaymentDirection) (cutoff : Option Int)
    (scope : Option String) (total : Int) (r : PaymentRecord) : Int :=
  if !(r.direction == direction) then total
  else if skipByCutoff cutoff r.createdAt then total
  else if skipByScope scope r.counterparty then total
  else if r.status == .failed || r.status == .refunded then total
  else total + r.amount

/-- `MemoryPaymentStorage.getTotal`. -/
def getTotal (records : List PaymentRecord) (now : Int)
    (direction : PaymentDirection) (windowMs : Option Int)
    (scope : Option String) : Int :=
  records.foldl (totalStep direction (windowCutoff now windowMs) scope) 0

/-- One iteration of the `getCount` loop of `MemoryPaymentStorage`. -/
def countStep (direction : PaymentDirection) (cutoff : Option Int)
    (count : Nat) (r : PaymentRecord) : Nat :=
  if !(r.direction == direction) then count
  else if skipByCutoff cutoff r.createdAt then count
  else if r.status == .failed || r.status == .refunded then count
  else count + 1

/-- `MemoryPaymentStorage.getCount`. -/
def getCount (records : List PaymentRecord) (now : Int)
    (direction : PaymentDirection) (windowMs : Option Int) : Nat :=
  records.foldl (countStep direction (windowCutoff now windowMs)) 0

/-- The record filter of `MemoryPaymentStorage.getRecords`: each `if
(filters.x)` guard is truthy-conditional. -/
def memoryRecordsFilter (filters : PaymentFilters) (r : PaymentRecord) : Bool :=
  (match filters.direction with
   | some d => r.direction == d
   | none => true)
  && (match filters.counterparty with
      | some c =>
        if c == "" then true else lowerString r.counterparty == lowerString c
      | none => true)
  && (match filters.status with
      | some s => r.status == s
      | none => true)
  && (match filters.network with
      | some n => if n == "" then true else r.network == n
      | none => true)
  && (match filters.since with
      | some s => if s == 0 then true else decide (s ≤ r.createdAt)
      | none => true)
  && (match filters.untilTs with
      | some u => if u == 0 then true else decide (r.createdAt ≤ u)
      | none => true)

/-- Insertion into a list sorted by `createdAt` descending (newest first),
modelling the `result.sort((a, b) => time(b) - time(a))` comparator. -/
def insertByNewest (r : PaymentRecord) : List PaymentRecord → List PaymentRecord
  | [] => [r]
  | x :: xs =>
    if x.createdAt ≤ r.createdAt then r :: x :: xs
    else x :: insertByNewest r xs

/-- Sort newest first. -/
def sortByNewest : List PaymentRecord → List PaymentRecord
  | [] => []
  | x :: xs => insertByNewest x (sortByNewest xs)

/-- `MemoryPaymentStorage.getRecords`: filter, sort newest first, then
`slice(offset, offset + limit)` with `offset ?? 0` and `limit ?? length`. -/
def getRecords (records : List PaymentRecord) (filters : PaymentFilters) :
    List PaymentRecord :=
  let result := (records.filter (memoryRecordsFilter filters))
  let sorted := sortByNewest result
  let offset := filters.offset.getD 0
  let limit := filters.limit.getD sorted.length
  (sorted.drop offset).take limit

/-! ## SQL storage backends (src/storage/sqlite.ts and the PostgreSQL
backend)

Both build a `WHERE` clause over the same logical table; the table is
modelled as the list of inserted rows.  Unlike the memory backend, the SQL
`getTotal`/`getCount` add the window cutoff whenever `windowMs !==
undefined` (no truthiness), and SQL `=` on `TEXT` is case-sensitive while
`LOWER(x) = LOWER(y)` is case-insensitive. -/

/-- Row filter of `SqlitePaymentStorage.getTotal` (and the PostgreSQL
`getTotal`): direction equality, status `NOT IN ('failed','refunded')`,
`created_at >= cutoff` when `windowMs !== undefined`, and a case-sensitive
`counterparty = scope` when `scope` is truthy. -/
def sqlTotalFilter (now : Int) (direction : PaymentDirection)
    (windowMs : Option Int) (scope : Option String) (r : PaymentRecord) :
    Bool :=
  r.direction == direction
  && !(r.status == .failed || r.status == .refunded)
  && (match windowMs with
      | some w => decide (now - w ≤ r.createdAt)
      | none => true)
  && (match scope with
      | some s => if s == "" then true else r.counterparty == s
      | none => true)

/-- `SqlitePaymentStorage.getTotal` (and the PostgreSQL `getTotal`): sum of
the amounts of the selected rows. -/
def sqlGetTotal (rows : List PaymentRecord) (now : Int)
    (direction : PaymentDirection) (windowMs : Option Int)
    (scope : Option String) : Int :=
  ((rows.filter (sqlTotalFilter now direction windowMs scope)).map
    PaymentRecord.amount).foldl (· + ·) 0

/-- Row filter of `SqlitePaymentStorage.getRecords` (and the PostgreSQL
`getRecords`): the counterparty clause is `LOWER(counterparty) =
LOWER(?)`, case-insensitive. -/
def sqlRecordsFilter (filters : PaymentFilters) (r : PaymentRecord) : Bool :=
  (match filters.direction with
   | some d => r.direction == d
   | none => true)
  && (match filters.counterparty with
      | some c =>
        if c == "" then true else lowerString r.counterparty == lowerString c
      | none => true)
  && (match filters.status with
      | some s => r.status == s
      | none => true)
  && (match filters.network with
      | some n => if n == "" then true else r.network == n
      | none => true)
  && (match filters.since with
      | some s => if s == 0 then true else decide (s ≤ r.createdAt)
      | none => true)
  && (match filters.untilTs with
      | some u => if u == 0 then true else decide (r.createdAt ≤ u)
      | none => true)

/-- `SqlitePaymentStorage.getRecords` (and the PostgreSQL `getRecords`):
`WHERE` filter, `ORDER BY created_at DESC`, then `LIMIT`/`OFFSET` when
given (`!== undefined`). -/
def sqlGetRecords (rows : List PaymentRecord) (filters : PaymentFilters) :
    List PaymentRecord :=
  let selected := sortByNewest (rows.filter (sqlRecordsFilter filters))
  let afterOffset :=
    match filters.offset with
    | some o => selected.drop o
    | none => selected
  match filters.limit with
  | some l => afterOffset.take l
  | none => afterOffset

/-! ### Aggregation specification

The specification-side matching predicate for the ledger aggregates: the
record matches the direction, lies inside the window, matches the scope,
and has status `pending` or `confirmed`. -/

/-- Specification predicate for inclusion in `getTotal`/`getCount`. -/
def matchesAggregate (direction : PaymentDirection) (now : Int)
    (windowMs : Option Int) (scope : Option String) (r : PaymentRecord) :
    Bool :=
  r.direction == direction
  && (match windowMs with
      | some w => decide (now - w ≤ r.createdAt)
      | none => true)
  && (match scope with
      | some s => r.counterparty == s
      | none => true)
  && (r.status == .pending || r.status == .confirmed)

/-! ## Policy engine (src/policy/engine.ts) -/

/-- Limits applied to outgoing (agent-pays) transactions (`OutgoingLimit`). -/
structure OutgoingLimit where
  maxPerTransaction : Int
  maxTotal : Int
  windowMs : Int
  maxTransactions : Nat
  allowedRecipients : List String
  blockedRecipients : List String
deriving DecidableEq, Repr

/-- Limits applied to incoming (agent-receives) transactions
(`IncomingLimit`). -/
structure IncomingLimit where
  minPerTransaction : Int
  allowedSenders : List String
  blockedSenders : List String
deriving DecidableEq, Repr

/-- Full payment policy configuration (`PaymentPolicy`). -/
structure PaymentPolicy where
  outgoing : OutgoingLimit
  incoming : IncomingLimit
deriving DecidableEq, Repr

/-- `Partial<PaymentPolicy>`: each limb is optional, but when present it is
a complete limb (the TypeScript `Partial` is one level deep). -/
structure PolicyUpdate where
  outgoing : Option OutgoingLimit := none
  incoming : Option IncomingLimit := none
deriving Repr

/-- The object spread `{ ...this.policy.outgoing, ...partial.outgoing }`:
every field of the update (all its fields are present, the update limb
being a complete `OutgoingLimit`) overrides the corresponding old field. -/
def spreadOutgoing (_old upd : OutgoingLimit) : OutgoingLimit :=
  { maxPerTransaction := upd.maxPerTransaction
    maxTotal := upd.maxTotal
    windowMs := upd.windowMs
    maxTransactions := upd.maxTransactions
    allowedRecipients := upd.allowedRecipients
    blockedRecipients := upd.blockedRecipients }

/-- The object spread `{ ...this.policy.incoming, ...partial.incoming }`. -/
def spreadIncoming (_old upd : IncomingLimit) : IncomingLimit :=
  { minPerTransaction := upd.minPerTransaction
    allowedSenders := upd.allowedSenders
    blockedSenders := upd.blockedSenders }

/-- `PolicyEngine.updatePolicy`. -/
def updatePolicy (policy : PaymentPolicy) (upd : PolicyUpdate) : PaymentPolicy :=
  { outgoing :=
      match upd.outgoing with
      | some o => spreadOutgoing policy.outgoing o
      | none => policy.outgoing
    incoming :=
      match upd.incoming with
      | some i => spreadIncoming policy.incoming i
      | none => policy.incoming }

/-- Result of evaluating a policy (`PolicyResult`). -/
structure PolicyResult where
  allowed : Bool
  reason : String
deriving DecidableEq, Repr

/-- The constant `ALLOW` result. -/
def ALLOW : PolicyResult := { allowed := true, reason := "" }

/-- `deny(reason)`. -/
def deny (reason : String) : PolicyResult := { allowed := false, reason := reason }

/-- Request to evaluate an outgoing payment (`OutgoingPaymentRequest`). -/
structure OutgoingPaymentRequest where
  amount : Int
  recipient : String
  resource : String
deriving DecidableEq, Repr

/-- Request to evaluate an incoming payment (`IncomingPaymentRequest`). -/
structure IncomingPaymentRequest where
  amount : Int
  sender : String
deriving DecidableEq, Repr

/-- Reason string of check 1 of `evaluateOutgoing`. -/
def perTransactionReason (amount maxPerTransaction : Int) : String :=
  s!"Amount {amount} exceeds per-transaction limit of {maxPerTransaction}"

/-- Reason string of check 2 of `evaluateOutgoing`. -/
def blockedRecipientReason (recipient : String) : String :=
  s!"Recipient {recipient} is blocked"

/-- Reason string of check 3 of `evaluateOutgoing`. -/
def notAllowedRecipientReason (recipient : String) : String :=
  s!"Recipient {recipient} is not in the allow list"

/-- Reason string of check 4 of `evaluateOutgoing`. -/
def windowTotalReason (wouldBe maxTotal : Int) : String :=
  s!"Total spend would be {wouldBe}, exceeding window limit of {maxTotal}"

/-- Reason string of check 5 of `evaluateOutgoing`. -/
def windowCountReason (currentCount : Nat) (maxTransactions : Nat) : String :=
  s!"Transaction count {currentCount} has reached the limit of {maxTransactions}"

/-- `addr.toLowerCase() === recipient.toLowerCase()` membership test. -/
def containsCaseInsensitive (addrs : List String) (addr : String) : Bool :=
  let normalized := lowerString addr
  addrs.any (fun a => lowerString a == normalized)

/-- `PolicyEngine.evaluateOutgoing`.  The engine's storage is the record
list of the in-memory ledger (`getTotal`/`getCount` above), `now` the
evaluation instant. -/
def evaluateOutgoing (policy : PaymentPolicy) (records : List PaymentRecord)
    (now : Int) (request : OutgoingPaymentRequest) : PolicyResult :=
  let limits := policy.outgoing
  -- 1. Per-transaction limit
  if limits.maxPerTransaction < request.amount then
    deny (perTransactionReason request.amount limits.maxPerTransaction)
  -- 2. Blocked recipients
  else if limits.blockedRecipients.length > 0
      && containsCaseInsensitive limits.blockedRecipients request.recipient then
    deny (blockedRecipientReason request.recipient)
  -- 3. Allowed recipients (whitelist mode)
  else if limits.allowedRecipients.length > 0
      && !containsCaseInsensitive limits.allowedRecipients request.recipient then
    deny (notAllowedRecipientReason request.recipient)
  else
    -- 4. Total within time window
    let currentTotal := getTotal records now .outgoing (some limits.windowMs) none
    if limits.maxTotal < currentTotal + request.amount then
      deny (windowTotalReason (currentTotal + request.amount) limits.maxTotal)
    else
      -- 5. Transaction count within time window
      let currentCount := getCount records now .outgoing (some limits.windowMs)
      if limits.maxTransactions ≤ currentCount then
        deny (windowCountReason currentCount limits.maxTransactions)
      else ALLOW

/-- `PolicyEngine.evaluateIncoming`. -/
def evaluateIncoming (policy : PaymentPolicy)
    (request : IncomingPaymentRequest) : PolicyResult :=
  let limits := policy.incoming
  if request.amount < limits.minPerTransaction then
    deny s!"Amount {request.amount} is below minimum of {limits.minPerTransaction}"
  else if limits.blockedSenders.length > 0
      && containsCaseInsensitive limits.blockedSenders request.sender then
    deny s!"Sender {request.sender} is blocked"
  else if limits.allowedSenders.length > 0
      && !containsCaseInsensitive limits.allowedSenders request.sender then
    deny s!"Sender {request.sender} is not in the allow list"
  else ALLOW

/-- The five outgoing checks as ordered (condition, reason) pairs, the
specification-side reading of "checks run in strict order, first failure
wins". -/
def outgoingChecks (policy : PaymentPolicy) (records : List PaymentRecord)
    (now : Int) (request : OutgoingPaymentRequest) :
    List (Bool × String) :=
  let limits := policy.outgoing
  let currentTotal := getTotal records now .outgoing (some limits.windowMs) none
  let currentCount := getCount records now .outgoing (some limits.windowMs)
  [ (limits.maxPerTransaction < request.amount,
      perTransactionReason request.amount limits.maxPerTransaction),
    (limits.blockedRecipients.length > 0
      && containsCaseInsensitive limits.blockedRecipients request.recipient,
      blockedRecipientReason request.recipient),
    (limits.allowedRecipients.length > 0
      && !containsCaseInsensitive limits.allowedRecipients request.recipient,
      notAllowedRecipientReason request.recipient),
    (limits.maxTotal < currentTotal + request.amount,
      windowTotalReason (currentTotal + request.amount) limits.maxTotal),
    (limits.maxTransactions ≤ currentCount,
      windowCountReason currentCount limits.maxTransactions) ]

/-- "First failure wins": the denial of the first check whose condition
holds, else allow. -/
def firstFailure : List (Bool × String) → PolicyResult
  | [] => ALLOW
  | (cond, reason) :: rest => if cond then deny reason else firstFailure rest

/-! ## Circuit breaker (src/policy/circuit-breaker.ts) -/

/-- Circuit breaker state. -/
inductive CircuitState where
  | closed
  | opened
  | halfOpen
deriving DecidableEq, Repr

/-- Configuration for the circuit breaker (`CircuitBreakerConfig`). -/
structure CircuitBreakerConfig where
  maxPaymentsPerMinute : Nat
  anomalyMultiplier : Int
  cooldownMs : Int
  recentWindowSize : Nat
deriving DecidableEq, Repr

/-- `DEFAULT_CONFIG`. -/
def DEFAULT_CONFIG : CircuitBreakerConfig :=
  { maxPaymentsPerMinute := 50
    anomalyMultiplier := 10
    cooldownMs := 60000
    recentWindowSize := 20 }

/-- The mutable state of a `CircuitBreaker` instance. -/
structure CircuitBreaker where
  state : CircuitState := .closed
  config : CircuitBreakerConfig := DEFAULT_CONFIG
  recentTimestamps : List Int := []
  recentAmounts : List Int := []
  trippedAt : Int := 0
  lastTripReason : String := ""
deriving DecidableEq, Repr

/-- `ceil(x / 1000)` on integers (`Math.ceil` of the exact quotient). -/
def ceilDivThousand (x : Int) : Int := -((-x) / 1000)

/-- `private trip(reason)`. -/
def CircuitBreaker.trip (b : CircuitBreaker) (now : Int) (reason : String) :
    CircuitBreaker :=
  { b with state := .opened, trippedAt := now, lastTripReason := reason }

/-- The denial reason while the breaker is open and cooling down. -/
def openDeniedReason (b : CircuitBreaker) (now : Int) : String :=
  let tripReason := b.lastTripReason
  let seconds := ceilDivThousand (b.config.cooldownMs - (now - b.trippedAt))
  s!"Circuit breaker is OPEN: {tripReason}. Resets in {seconds}s"

/-- The rate-guard trip reason. -/
def rateReason (count : Nat) : String :=
  s!"Rate exceeded: {count} payments in the last minute"

/-- The anomaly-guard trip reason. -/
def anomalyReason (amount : Int) (multiplier : Int) (avg : Int) : String :=
  s!"Anomaly detected: payment of {amount} is >{multiplier}x the average of {avg}"

/-- `CircuitBreaker.check(amount)` at instant `now` (`Date.now()`): returns
the updated breaker and the `{allowed, reason}` result. -/
def CircuitBreaker.check (b : CircuitBreaker) (now : Int) (amount : Int) :
    CircuitBreaker × PolicyResult :=
  -- If open, check if cooldown has elapsed
  let entry : CircuitBreaker ⊕ (CircuitBreaker × PolicyResult) :=
    if b.state == .opened then
      if b.config.cooldownMs ≤ now - b.trippedAt then
        Sum.inl { b with state := .halfOpen }
      else
        Sum.inr (b, { allowed := false, reason := openDeniedReason b now })
    else Sum.inl b
  match entry with
  | Sum.inr result => result
  | Sum.inl b1 =>
    -- Rate check: count payments in the last 60 seconds
    let oneMinuteAgo := now - 60000
    let ts := b1.recentTimestamps.filter (fun t => oneMinuteAgo < t)
    let b2 := { b1 with recentTimestamps := ts }
    if b2.config.maxPaymentsPerMinute ≤ ts.length then
      let b3 := b2.trip now (rateReason ts.length)
      (b3, { allowed := false, reason := b3.lastTripReason })
    else
      -- Anomaly check: compare against rolling average
      if 3 ≤ b2.recentAmounts.length then
        let sum := b2.recentAmounts.foldl (· + ·) 0
        let avg := Int.tdiv sum (b2.recentAmounts.length : Int)
        if 0 < avg && avg * b2.config.anomalyMultiplier < amount then
          let b3 := b2.trip now (anomalyReason amount b2.config.anomalyMultiplier avg)
          (b3, { allowed := false, reason := b3.lastTripReason })
        else (b2, { allowed := true, reason := "" })
      else (b2, { allowed := true, reason := "" })

/-- `CircuitBreaker.recordSuccess(amount)` at instant `now`. -/
def CircuitBreaker.recordSuccess (b : CircuitBreaker) (now : Int)
    (amount : Int) : CircuitBreaker :=
  let ts := b.recentTimestamps ++ [now]
  -- Maintain a sliding window of recent amounts
  let pushed := b.recentAmounts ++ [amount]
  let amounts :=
    if b.config.recentWindowSize < pushed.length then pushed.tail else pushed
  let b1 := { b with recentTimestamps := ts, recentAmounts := amounts }
  -- Successful probe in half-open → close
  if b1.state == .halfOpen then
    { b1 with state := .closed, lastTripReason := "" }
  else b1

/-- `CircuitBreaker.recordFailure()` at instant `now`. -/
def CircuitBreaker.recordFailure (b : CircuitBreaker) (now : Int) :
    CircuitBreaker :=
  if b.state == .halfOpen then
    b.trip now "Probe payment failed in half-open state"
  else b

/-- `CircuitBreaker.reset()`. -/
def CircuitBreaker.reset (b : CircuitBreaker) : CircuitBreaker :=
  { b with state := .closed, lastTripReason := "", trippedAt := 0 }

/-! ## Facilitator client (src/server/facilitator-client.ts)

`verifyPaymentWithFacilitator` and `settlePaymentWithFacilitator` wrap the
whole interaction in `try`/`catch`.  Every way the interaction can go is
enumerated by `FacilitatorOutcome`; the functions below are the (total)
translation of the source's control flow over those outcomes, so "never
throws" is the totality of the translation: every outcome is mapped to a
plain result value. -/

/-- How one facilitator HTTP interaction can end:
decode failure (`buildFacilitatorRequestBody` throws), a thrown transport
error (`fetch` or `response.json()` rejects), a non-2xx response with its
error text, or a 2xx response with its parsed JSON body. -/
inductive FacilitatorOutcome (β : Type) where
  | decodeFailure
  | transportFailure (message : String)
  | httpError (status : Nat) (errorText : String)
  | httpOk (body : β)
deriving DecidableEq, Repr

/-- The error message thrown by `buildFacilitatorRequestBody` when the
proof is neither base64-encoded JSON nor raw JSON. -/
def decodeErrorMessage : String :=
  "Payment proof is neither valid base64-encoded JSON nor direct JSON"

/-- `Facilitator request failed: <message>` (the catch-all reason). -/
def facilitatorFailedReason (message : String) : String :=
  s!"Facilitator request failed: {message}"

/-- `Facilitator returned <status>: <errorText>` (the non-2xx reason). -/
def facilitatorHttpErrorReason (status : Nat) (errorText : String) : String :=
  s!"Facilitator returned {status}: {errorText}"

/-- Parsed JSON body of the verify endpoint (all fields optional). -/
structure VerifyResponseBody where
  isValid : Option Bool := none
  payer : Option String := none
  invalidReason : Option String := none
deriving DecidableEq, Repr

/-- Parsed JSON body of the settle endpoint (all fields optional). -/
structure SettleResponseBody where
  success : Option Bool := none
  transaction : Option String := none
  errorReason : Option String := none
deriving DecidableEq, Repr

/-- Result of facilitator verification (`FacilitatorVerifyResult`). -/
structure FacilitatorVerifyResult where
  valid : Bool
  payer : Option String := none
  txHash : Option String := none
  reason : Option String := none
deriving DecidableEq, Repr

/-- Result of facilitator settlement (`{success, txHash?, reason?}`). -/
structure SettleResult where
  success : Bool
  txHash : Option String := none
  reason : Option String := none
deriving DecidableEq, Repr

/-- `verifyPaymentWithFacilitator`, as a function of how the interaction
went.  A decode failure is thrown inside the `try`, so it surfaces through
the same catch as a transport failure. -/
def verifyPaymentWithFacilitator :
    FacilitatorOutcome VerifyResponseBody → FacilitatorVerifyResult
  | .decodeFailure =>
    { valid := false, reason := some (facilitatorFailedReason decodeErrorMessage) }
  | .transportFailure msg =>
    { valid := false, reason := some (facilitatorFailedReason msg) }
  | .httpError status errorText =>
    { valid := false, reason := some (facilitatorHttpErrorReason status errorText) }
  | .httpOk body =>
    { valid := body.isValid == some true
      payer := body.payer
      reason := body.invalidReason }

/-- `settlePaymentWithFacilitator`, as a function of how the interaction
went. -/
def settlePaymentWithFacilitator :
    FacilitatorOutcome SettleResponseBody → SettleResult
  | .decodeFailure =>
    { success := false, reason := some (facilitatorFailedReason decodeErrorMessage) }
  | .transportFailure msg =>
    { success := false, reason := some (facilitatorFailedReason msg) }
  | .httpError status errorText =>
    { success := false, reason := some (facilitatorHttpErrorReason status errorText) }
  | .httpOk body =>
    { success := body.success == some true
      txHash := body.transaction
      reason := body.errorReason }

/-! ## x402 protocol types (src/types.ts) -/

/-- Payment requirement (`PaymentRequirement`).  `maxAmountRequired` is a
decimal string on the wire; the client immediately converts it with
`BigInt(...)`, so it is modelled as the integer it denotes. -/
structure PaymentRequirement where
  scheme : String
  network : String
  maxAmountRequired : Int
  resource : String
  description : String
  mimeType : String
  payTo : String
  maxTimeoutSeconds : Nat
  asset : String
  extra : List (String × String)
deriving DecidableEq, Repr

/-- Decoded 402 payload (`PaymentRequiredResponse`). -/
structure PaymentRequiredResponse where
  x402Version : Nat
  accepts : List PaymentRequirement
deriving DecidableEq, Repr

/-! ## Client fetch wrapper (src/client/fetch-with-payment.ts) -/

/-- An HTTP response as the fetch wrapper observes it: its status, a body
tag distinguishing distinct responses, and the two session-id response
headers the wrapper reads. -/
structure HttpResponse where
  status : Nat
  body : String
  sessionHeader : Option String := none
  legacySessionHeader : Option String := none
deriving DecidableEq, Repr

/-- `Response.ok`: status in the 2xx range. -/
def HttpResponse.ok (r : HttpResponse) : Bool :=
  200 ≤ r.status && r.status < 300

/-- `selectPaymentOption`: the first offered requirement whose network
matches the signer's network, never a different chain. -/
def selectPaymentOption (accepts : List PaymentRequirement)
    (signerNetworkId : String) : Option PaymentRequirement :=
  accepts.find? (fun a => a.network == signerNetworkId)

/-- Environment of one `fetchWithPayment` call: the initial response, the
parse result of its payment-required header, the policy engine state, the
breaker, and the outcomes of the signing and retry steps (each an
`Except` because the source wraps them in `try`/`catch`). -/
structure FetchEnv where
  url : String
  initialResponse : HttpResponse
  parsed : Option PaymentRequiredResponse
  signerNetworkId : String
  policy : PaymentPolicy
  records : List PaymentRecord
  breaker : CircuitBreaker
  now : Int
  signResult : Except String String
  retryResult : Except String HttpResponse
  recordId : String

/-- Observable outcome of one `fetchWithPayment` call: the returned
response, whether the signer was invoked, whether the retry request was
issued, the ledger records written, and the final breaker state. -/
structure FetchOutcome where
  response : HttpResponse
  signerInvoked : Bool
  retryIssued : Bool
  recorded : List PaymentRecord
  breaker : CircuitBreaker
deriving Repr

/-- Shorthand for the early returns of the original response with no side
effects beyond the given breaker state. -/
def originalOutcome (env : FetchEnv) (breaker : CircuitBreaker)
    (signerInvoked retryIssued : Bool) : FetchOutcome :=
  { response := env.initialResponse
    signerInvoked := signerInvoked
    retryIssued := retryIssued
    recorded := []
    breaker := breaker }

/-- The body of `createFetchWithPayment` for one request. -/
def fetchWithPayment (env : FetchEnv) : FetchOutcome :=
  -- If not 402, return as-is
  if !(env.initialResponse.status == 402) then
    originalOutcome env env.breaker false false
  else
    -- Parse the payment requirement
    match env.parsed with
    | none => originalOutcome env env.breaker false false
    | some paymentRequired =>
      if paymentRequired.accepts.length == 0 then
        originalOutcome env env.breaker false false
      else
        -- Select a payment option
        match selectPaymentOption paymentRequired.accepts env.signerNetworkId with
        | none => originalOutcome env env.breaker false false
        | some requirement =>
          let amount := requirement.maxAmountRequired
          -- Check policy BEFORE signing
          let policyResult := evaluateOutgoing env.policy env.records env.now
            { amount := amount, recipient := requirement.payTo, resource := env.url }
          if !policyResult.allowed then
            originalOutcome env env.breaker false false
          else
            -- Check circuit breaker
            let checked := env.breaker.check env.now amount
            if !checked.2.allowed then
              originalOutcome env checked.1 false false
            else
              -- Sign the payment
              match env.signResult with
              | .error _ =>
                originalOutcome env (checked.1.recordFailure env.now) true false
              | .ok _paymentHeader =>
                -- Retry request with payment header
                match env.retryResult with
                | .error _ =>
                  originalOutcome env (checked.1.recordFailure env.now) true true
                | .ok retryResponse =>
                  -- Session id: primary header ?? legacy header ?? ""
                  let sessionId :=
                    (retryResponse.sessionHeader.getD
                      (retryResponse.legacySessionHeader.getD ""))
                  -- Record the payment
                  let record : PaymentRecord :=
                    { id := env.recordId
                      direction := .outgoing
                      counterparty := requirement.payTo
                      amount := amount
                      network := requirement.network
                      txHash := sessionId
                      resource := env.url
                      status := if retryResponse.ok then .confirmed else .failed
                      createdAt := env.now
                      metadata :=
                        [("scheme", requirement.scheme),
                         ("description", requirement.description)] }
                  let finalBreaker :=
                    if retryResponse.ok then checked.1.recordSuccess env.now amount
                    else checked.1.recordFailure env.now
                  { response := retryResponse
                    signerInvoked := true
                    retryIssued := true
                    recorded := [record]
                    breaker := finalBreaker }

/-! ## Server paywall middleware (src/server/middleware.ts) -/

/-- Supported EVM network descriptor (`NetworkInfo`). -/
structure NetworkInfo where
  caip2 : String
  chainId : Nat
  name : String
  usdcAddress : String
  usdcDomainName : String
  usdcPermitVersion : String
deriving DecidableEq, Repr

/-- Configuration for the paywall middleware (`PaywallConfig`). -/
structure PaywallConfig where
  payTo : String
  facilitatorUrl : String
  amount : Int
  description : String
  mimeType : String
  maxTimeoutSeconds : Nat
deriving DecidableEq, Repr

/-- A request header value: a string, a string array, or undefined. -/
inductive HeaderValue where
  | str (s : String)
  | arr (xs : List String)
  | undef
deriving DecidableEq, Repr

/-- `getHeader(req, name)`: case-insensitive lookup over the header
entries; an array value yields its first element. -/
def getHeaderValue (headers : List (String × HeaderValue)) (name : String) :
    Option String :=
  let lowerName := lowerString name
  match headers.find? (fun kv => lowerString kv.1 == lowerName) with
  | some (_, .str s) => some s
  | some (_, .arr xs) => xs.head?
  | some (_, .undef) => none
  | none => none

/-- `if (!paymentHeader)`: undefined or the empty string is falsy. -/
def headerIsBlank : Option String → Bool
  | none => true
  | some s => s == ""

/-- The JSON bodies the middleware can send. -/
inductive PaywallBody where
  | paymentRequired (message : String)
  | paymentInvalid (reason : String)
deriving DecidableEq, Repr

/-- Environment of one paywall middleware invocation: the request, the
facilitator results for this proof, whether a storage backend was
provided, and the base64-of-JSON encoder used for the challenge header
(passed in because its internals are byte-level, not control flow). -/
structure PaywallEnv where
  headers : List (String × HeaderValue)
  url : Option String
  verifyResult : FacilitatorVerifyResult
  settleResult : SettleResult
  hasStorage : Bool
  recordId : String
  now : Int
  encode : PaymentRequiredResponse → String

/-- Observable outcome of one paywall middleware invocation. -/
structure PaywallOutcome where
  statusSet : Option Nat
  body : Option PaywallBody
  headersSet : List (String × String)
  nextInvocations : Nat
  recorded : List PaymentRecord

/-- The pre-built payment requirement template of
`createPaywallMiddleware` (resource filled per request). -/
def requirementTemplate (config : PaywallConfig) (networkInfo : NetworkInfo) :
    PaymentRequirement :=
  { scheme := "upto"
    network := networkInfo.caip2
    maxAmountRequired := config.amount
    resource := ""
    description := config.description
    mimeType := config.mimeType
    payTo := config.payTo
    maxTimeoutSeconds := config.maxTimeoutSeconds
    asset := networkInfo.usdcAddress
    extra :=
      [("name", networkInfo.usdcDomainName),
       ("version", networkInfo.usdcPermitVersion)] }

/-- The body of the middleware returned by `createPaywallMiddleware`
(`networkInfo` is `resolveNetwork(config.network)`).  The facilitator
verify/settle results for the presented proof come from the environment;
the middleware's use of them is translated from the source. -/
def paywallMiddleware (config : PaywallConfig) (networkInfo : NetworkInfo)
    (env : PaywallEnv) : PaywallOutcome :=
  let template := requirementTemplate config networkInfo
  -- Check for X-PAYMENT header
  let paymentHeader := getHeaderValue env.headers "x-payment"
  if headerIsBlank paymentHeader then
    -- No payment provided — return 402 with requirements
    let resource := env.url.getD "/"
    let requirement := { template with resource := resource }
    let paymentRequired : PaymentRequiredResponse :=
      { x402Version := 2, accepts := [requirement] }
    let encoded := env.encode paymentRequired
    { statusSet := some 402
      body := some (.paymentRequired config.description)
      headersSet := [("Payment-Required", encoded), ("x-402", encoded)]
      nextInvocations := 0
      recorded := [] }
  else
    -- Verify the payment with the facilitator
    if !env.verifyResult.valid then
      { statusSet := some 402
        body := some (.paymentInvalid
          (env.verifyResult.reason.getD "Payment verification failed"))
        headersSet := []
        nextInvocations := 0
        recorded := [] }
    else
      -- Settle, then record incoming payment if storage is provided
      -- (`if (storage && verifyResult.payer)`: an empty payer is falsy)
      let recorded :=
        if env.hasStorage then
          match env.verifyResult.payer with
          | some payer =>
            if payer == "" then []
            else
              [{ id := env.recordId
                 direction := .incoming
                 counterparty := payer
                 amount := config.amount
                 network := networkInfo.caip2
                 txHash := env.settleResult.txHash.getD ""
                 resource := env.url.getD "/"
                 status :=
                   if env.settleResult.success then .confirmed else .pending
                 createdAt := env.now
                 metadata := [] }]
          | none => []
        else []
      -- Session-id response headers when available (`if (settleResult.txHash)`)
      let sessionHeaders :=
        match env.settleResult.txHash with
        | some tx =>
          if tx == "" then []
          else [("x-upto-session-id", tx), ("X-PAYMENT-RESPONSE", tx)]
        | none => []
      -- Payment verified — proceed to handler
      { statusSet := none
        body := none
        headersSet := sessionHeaders
        nextInvocations := 1
        recorded := recorded }

/-! ## Reference-semantics view of `PolicyEngine.getPolicy` (src/policy/engine.ts)

`getPolicy` returns `{ outgoing: { ...policy.outgoing }, incoming:
{ ...policy.incoming } }`: the two limb objects are fresh, but the spread
copies the array references inside them.  To reason about that aliasing,
the nested arrays live in an explicit store and the limbs hold references
(indices) into it; scalar fields are plain values. -/

/-- A reference to a mutable JavaScript array. -/
abbrev ArrRef := Nat

/-- The array store: maps each reference to the current array content. -/
abbrev Store := ArrRef → List String

/-- Read an array through its reference. -/
def readArr (σ : Store) (r : ArrRef) : List String := σ r

/-- `array.push(x)` through a reference. -/
def pushArr (σ : Store) (r : ArrRef) (x : String) : Store :=
  Function.update σ r (σ r ++ [x])

/-- `OutgoingLimit` with its two arrays as references. -/
structure OutgoingLimitR where
  maxPerTransaction : Int
  maxTotal : Int
  windowMs : Int
  maxTransactions : Nat
  allowedRecipients : ArrRef
  blockedRecipients : ArrRef
deriving DecidableEq, Repr

/-- `IncomingLimit` with its two arrays as references. -/
structure IncomingLimitR where
  minPerTransaction : Int
  allowedSenders : ArrRef
  blockedSenders : ArrRef
deriving DecidableEq, Repr

/-- `PaymentPolicy` in the reference view. -/
structure PaymentPolicyR where
  outgoing : OutgoingLimitR
  incoming : IncomingLimitR
deriving DecidableEq, Repr

/-- `PolicyEngine.getPolicy`: fresh limb objects whose fields — the array
references included — are spread-copied from the engine's policy. -/
def getPolicyR (p : PaymentPolicyR) : PaymentPolicyR :=
  { outgoing :=
      { maxPerTransaction := p.outgoing.maxPerTransaction
        maxTotal := p.outgoing.maxTotal
        windowMs := p.outgoing.windowMs
        maxTransactions := p.outgoing.maxTransactions
        allowedRecipients := p.outgoing.allowedRecipients
        blockedRecipients := p.outgoing.blockedRecipients }
    incoming :=
      { minPerTransaction := p.incoming.minPerTransaction
        allowedSenders := p.incoming.allowedSenders
        blockedSenders := p.incoming.blockedSenders } }

/-- Dereference a policy against the store, yielding the plain-value
policy the evaluators read. -/
def derefPolicy (σ : Store) (p : PaymentPolicyR) : PaymentPolicy :=
  { outgoing :=
      { maxPerTransaction := p.outgoing.maxPerTransaction
        maxTotal := p.outgoing.maxTotal
        windowMs := p.outgoing.windowMs
        maxTransactions := p.outgoing.maxTransactions
        allowedRecipients := readArr σ p.outgoing.allowedRecipients
        blockedRecipients := readArr σ p.outgoing.blockedRecipients }
    incoming :=
      { minPerTransaction := p.incoming.minPerTransaction
        allowedSenders := readArr σ p.incoming.allowedSenders
        blockedSenders := readArr σ p.incoming.blockedSenders } }

/-- `evaluateOutgoing` of an engine whose policy lives in the store. -/
def evaluateOutgoingR (p : PaymentPolicyR) (σ : Store)
    (records : List PaymentRecord) (now : Int)
    (request : OutgoingPaymentRequest) : PolicyResult :=
  evaluateOutgoing (derefPolicy σ p) records now request

/-! # Theorems -/

/-! ## C1: partial policy updates replace limbs wholesale -/

/-- C1: for every policy and partial update, after `updatePolicy` each limb
present in the update equals exactly the limb given in the update (the
spread replaces every individual field, i.e. the old limb is replaced
wholesale), and each limb absent from the update is unchanged. -/
theorem updatePolicy_replaces_limbs_wholesale (p : PaymentPolicy)
    (u : PolicyUpdate) :
    (∀ o, u.outgoing = some o → (updatePolicy p u).outgoing = o) ∧
    (u.outgoing = none → (updatePolicy p u).outgoing = p.outgoing) ∧
    (∀ i, u.incoming = some i → (updatePolicy p u).incoming = i) ∧
    (u.incoming = none → (updatePolicy p u).incoming = p.incoming) := by
  refine ⟨fun o ho => ?_, fun ho => ?_, fun i hi => ?_, fun hi => ?_⟩
  · simp [updatePolicy, spreadOutgoing, ho]
  · simp [updatePolicy, ho]
  · simp [updatePolicy, spreadIncoming, hi]
  · simp [updatePolicy, hi]

/-- Concrete policy for the C1 witness. -/
def c1Policy : PaymentPolicy :=
  { outgoing :=
      { maxPerTransaction := 1000000, maxTotal := 10000000
        windowMs := 86400000, maxTransactions := 100
        allowedRecipients := [], blockedRecipients := [] }
    incoming := { minPerTransaction := 0, allowedSenders := [], blockedSenders := [] } }

/-- Concrete replacement outgoing limb for the C1 witness. -/
def c1NewOutgoing : OutgoingLimit :=
  { maxPerTransaction := 5000000, maxTotal := 10000000
    windowMs := 86400000, maxTransactions := 100
    allowedRecipients := ["0xaaaa"], blockedRecipients := [] }

/-- Concrete partial update (outgoing limb only) for the C1 witness. -/
def c1Update : PolicyUpdate := { outgoing := some c1NewOutgoing, incoming := none }

/-- C1 witness: on a concrete engine and update, the present limb is
replaced by exactly the update's limb and the absent limb is unchanged. -/
theorem updatePolicy_replaces_limbs_wholesale_witness :
    (updatePolicy c1Policy c1Update).outgoing = c1NewOutgoing ∧
    (updatePolicy c1Policy c1Update).incoming = c1Policy.incoming :=
  ⟨(updatePolicy_replaces_limbs_wholesale c1Policy c1Update).1 c1NewOutgoing rfl,
   (updatePolicy_replaces_limbs_wholesale c1Policy c1Update).2.2.2 rfl⟩

/-! ## C6: the facilitator client never throws -/

/-- C6: every decode failure, transport failure or non-2xx response of the
facilitator interaction is returned as a plain result value — `valid :=
false` with a descriptive reason for verify, `success := false` with a
descriptive reason for settle (the functions are total over all
interaction outcomes, the model of "never throws") — and a success result
arises exactly when a 2xx JSON body says `isValid` (respectively
`success`) is `true`. -/
theorem facilitator_client_never_throws :
    (verifyPaymentWithFacilitator .decodeFailure
      = { valid := false,
          reason := some (facilitatorFailedReason decodeErrorMessage) }) ∧
    (∀ msg, verifyPaymentWithFacilitator (.transportFailure msg)
      = { valid := false, reason := some (facilitatorFailedReason msg) }) ∧
    (∀ status errorText,
      verifyPaymentWithFacilitator (.httpError status errorText)
        = { valid := false,
            reason := some (facilitatorHttpErrorReason status errorText) }) ∧
    (∀ o, (verifyPaymentWithFacilitator o).valid = true ↔
      ∃ body, o = .httpOk body ∧ body.isValid = some true) ∧
    (settlePaymentWithFacilitator .decodeFailure
      = { success := false,
          reason := some (facilitatorFailedReason decodeErrorMessage) }) ∧
    (∀ msg, settlePaymentWithFacilitator (.transportFailure msg)
      = { success := false, reason := some (facilitatorFailedReason msg) }) ∧
    (∀ status errorText,
      settlePaymentWithFacilitator (.httpError status errorText)
        = { success := false,
            reason := some (facilitatorHttpErrorReason status errorText) }) ∧
    (∀ o, (settlePaymentWithFacilitator o).success = true ↔
      ∃ body, o = .httpOk body ∧ body.success = some true) := by
  refine ⟨rfl, fun _ => rfl, fun _ _ => rfl, fun o => ?_,
          rfl, fun _ => rfl, fun _ _ => rfl, fun o => ?_⟩
  · cases o <;> simp [verifyPaymentWithFacilitator]
  · cases o <;> simp [settlePaymentWithFacilitator]

/-! ## C4: ledger aggregation -/

/-- Folding "add `f x` when `p x`" over a list sums `f` over the filtered
list. -/
theorem foldl_guarded_add (p : PaymentRecord → Bool) (f : PaymentRecord → Int) :
    ∀ (l : List PaymentRecord) (a : Int),
      l.foldl (fun acc x => if p x then acc + f x else acc) a
        = a + ((l.filter p).map f).sum := by
  intro l
  induction l with
  | nil => simp
  | cons x xs ih =>
    intro a
    by_cases hp : p x
    · simp [hp, ih, add_assoc]
    · simp [hp, ih]

/-- Folding "add one when `p x`" over a list counts the filtered list. -/
theorem foldl_guarded_count (p : PaymentRecord → Bool) :
    ∀ (l : List PaymentRecord) (a : Nat),
      l.foldl (fun acc x => if p x then acc + 1 else acc) a
        = a + (l.filter p).length := by
  intro l
  induction l with
  | nil => simp
  | cons x xs ih =>
    intro a
    by_cases hp : p x
    · simp [hp, ih]; omega
    · simp [hp, ih]

/-- Statuses other than `failed` and `refunded` are exactly `pending` and
`confirmed`. -/
theorem status_not_excluded_iff (s : PaymentStatus) :
    (!(s == .failed || s == .refunded)) = (s == .pending || s == .confirmed) := by
  cases s <;> rfl

/-- When the window is not the falsy `0` and the scope is not the falsy
empty string, the `continue` conditions of the `getTotal` loop select
exactly the records of the aggregation specification. -/
theorem totalStep_eq_matchesAggregate (direction : PaymentDirection)
    (now : Int) (windowMs : Option Int) (scope : Option String)
    (hw : windowMs ≠ some 0) (hs : scope ≠ some "")
    (total : Int) (r : PaymentRecord) :
    totalStep direction (windowCutoff now windowMs) scope total r
      = if matchesAggregate direction now windowMs scope r
        then total + r.amount else total := by
  rcases windowMs with _ | w <;> rcases scope with _ | s
  · cases hdir : (r.direction == direction) <;> cases hst : r.status <;>
      simp [totalStep, matchesAggregate, windowCutoff, skipByCutoff,
            skipByScope, hdir, hst]
  · have hs' : s ≠ "" := fun h => hs (by simp [h])
    cases hdir : (r.direction == direction) <;> cases hst : r.status <;>
      cases hcp : (r.counterparty == s) <;>
        simp [totalStep, matchesAggregate, windowCutoff, skipByCutoff,
              skipByScope, hdir, hst, hcp, hs']
  · have hw' : w ≠ 0 := fun h => hw (by simp [h])
    cases hdir : (r.direction == direction) <;> cases hst : r.status <;>
      by_cases hcut : (r.createdAt < now - w) <;>
        simp [totalStep, matchesAggregate, windowCutoff, skipByCutoff,
              skipByScope, hdir, hst, hw', hcut, not_lt, not_le] <;>
          omega
  · have hw' : w ≠ 0 := fun h => hw (by simp [h])
    have hs' : s ≠ "" := fun h => hs (by simp [h])
    cases hdir : (r.direction == direction) <;> cases hst : r.status <;>
      cases hcp : (r.counterparty == s) <;>
        by_cases hcut : (r.createdAt < now - w) <;>
          simp [totalStep, matchesAggregate, windowCutoff, skipByCutoff,
                skipByScope, hdir, hst, hcp, hw', hs', hcut, not_lt, not_le] <;>
            omega

/-- As above, for the `getCount` loop (no scope argument). -/
theorem countStep_eq_matchesAggregate (direction : PaymentDirection)
    (now : Int) (windowMs : Option Int) (hw : windowMs ≠ some 0)
    (count : Nat) (r : PaymentRecord) :
    countStep direction (windowCutoff now windowMs) count r
      = if matchesAggregate direction now windowMs none r
        then count + 1 else count := by
  rcases windowMs with _ | w
  · cases hdir : (r.direction == direction) <;> cases hst : r.status <;>
      simp [countStep, matchesAggregate, windowCutoff, skipByCutoff,
            skipByScope, hdir, hst]
  · have hw' : w ≠ 0 := fun h => hw (by simp [h])
    cases hdir : (r.direction == direction) <;> cases hst : r.status <;>
      by_cases hcut : (r.createdAt < now - w) <;>
        simp [countStep, matchesAggregate, windowCutoff, skipByCutoff,
              skipByScope, hdir, hst, hw', hcut, not_lt, not_le] <;>
          first
            | omega
            | (split <;> omega)

/-- C4: for every stored record set, direction, (non-falsy) optional window
and (non-falsy) optional counterparty scope, `getTotal` is the exact sum of
the amounts of the records matching direction, window and scope whose
status is `pending` or `confirmed`, and `getCount` is the number of such
records; `failed` and `refunded` records are never aggregated (the
matching predicate only admits `pending`/`confirmed`). -/
theorem getTotal_getCount_aggregate_spec (records : List PaymentRecord)
    (now : Int) (direction : PaymentDirection) (windowMs : Option Int)
    (scope : Option String) (hw : windowMs ≠ some 0) (hs : scope ≠ some "") :
    getTotal records now direction windowMs scope
      = ((records.filter (matchesAggregate direction now windowMs scope)).map
          PaymentRecord.amount).sum ∧
    getCount records now direction windowMs
      = (records.filter (matchesAggregate direction now windowMs none)).length := by
  constructor
  · have hstep := totalStep_eq_matchesAggregate direction now windowMs scope hw hs
    calc getTotal records now direction windowMs scope
        = records.foldl
            (fun acc r =>
              if matchesAggregate direction now windowMs scope r
              then acc + r.amount else acc) 0 := by
          unfold getTotal
          exact List.foldl_ext _ _ 0 (fun a b _ => hstep a b)
      _ = _ := by
          rw [foldl_guarded_add]; simp
  · have hstep := countStep_eq_matchesAggregate direction now windowMs hw
    calc getCount records now direction windowMs
        = records.foldl
            (fun acc r =>
              if matchesAggregate direction now windowMs none r
              then acc + 1 else acc) 0 := by
          unfold getCount
          exact List.foldl_ext _ _ 0 (fun a b _ => hstep a b)
      _ = _ := by
          rw [foldl_guarded_count]; simp

/-! ## C2: circuit breaker anomaly trip and half-open probe cycle -/

/-- The rolling average the anomaly guard computes: bigint division
truncates toward zero. -/
def avgOf (l : List Int) : Int :=
  Int.tdiv (l.foldl (· + ·) 0) (l.length : Int)

/-- Summing a replicated list. -/
theorem foldl_add_replicate (A : Int) :
    ∀ (k : Nat) (a : Int),
      (List.replicate k A).foldl (· + ·) a = a + k * A := by
  intro k
  induction k with
  | zero => simp
  | succ n ih =>
    intro a
    simp only [List.replicate_succ, List.foldl_cons, ih]
    push_cast
    ring

/-- The average of `k ≥ 1` copies of `A` is exactly `A`. -/
theorem avgOf_replicate (k : Nat) (A : Int) (hk : k ≠ 0) :
    avgOf (List.replicate k A) = A := by
  have hkz : ((k : Int)) ≠ 0 := by
    simpa using hk
  simp only [avgOf, List.length_replicate, foldl_add_replicate, zero_add]
  rw [Int.mul_tdiv_cancel_left A hkz]

/-- A closed breaker whose rate guard passes and whose anomaly guard finds
the requested amount above `avg × multiplier` (with at least 3 samples and
a positive average) trips open with the anomaly reason. -/
theorem check_trips_on_anomaly (b : CircuitBreaker) (now x : Int)
    (hstate : b.state = .closed)
    (hrate : (b.recentTimestamps.filter (fun t => now - 60000 < t)).length
      < b.config.maxPaymentsPerMinute)
    (hk : 3 ≤ b.recentAmounts.length)
    (havg : 0 < avgOf b.recentAmounts)
    (hx : avgOf b.recentAmounts * b.config.anomalyMultiplier < x) :
    b.check now x
      = ({ b with
            state := .opened
            recentTimestamps := b.recentTimestamps.filter (fun t => now - 60000 < t)
            trippedAt := now
            lastTripReason :=
              anomalyReason x b.config.anomalyMultiplier (avgOf b.recentAmounts) },
         { allowed := false
           reason :=
             anomalyReason x b.config.anomalyMultiplier (avgOf b.recentAmounts) }) := by
  have hno : ¬(b.config.maxPaymentsPerMinute
      ≤ (b.recentTimestamps.filter (fun t => now - 60000 < t)).length) :=
    not_le.mpr hrate
  simp only [avgOf] at havg hx
  simp [CircuitBreaker.check, CircuitBreaker.trip, hstate, hno, hk, avgOf]
  exact ⟨havg, hx⟩

/-- An open breaker whose cooldown has elapsed half-opens; if the rate
guard passes and the anomaly guard does not fire, the check is allowed and
the breaker stays half-open. -/
theorem check_halfopens_after_cooldown (b : CircuitBreaker) (now y : Int)
    (hstate : b.state = .opened)
    (hcool : b.config.cooldownMs ≤ now - b.trippedAt)
    (hrate : (b.recentTimestamps.filter (fun t => now - 60000 < t)).length
      < b.config.maxPaymentsPerMinute)
    (hnoanom : b.recentAmounts.length < 3 ∨
      ¬(0 < avgOf b.recentAmounts) ∨
      ¬(avgOf b.recentAmounts * b.config.anomalyMultiplier < y)) :
    b.check now y
      = ({ b with
            state := .halfOpen
            recentTimestamps := b.recentTimestamps.filter (fun t => now - 60000 < t) },
         { allowed := true, reason := "" }) := by
  have hno : ¬(b.config.maxPaymentsPerMinute
      ≤ (b.recentTimestamps.filter (fun t => now - 60000 < t)).length) :=
    not_le.mpr hrate
  rcases hnoanom with h3 | hcond'
  · have h3' : ¬(3 ≤ b.recentAmounts.length) := not_le.mpr h3
    simp [CircuitBreaker.check, hstate, hcool, hno, h3']
  · have hcond : ¬(0 < avgOf b.recentAmounts ∧
        avgOf b.recentAmounts * b.config.anomalyMultiplier < y) := by
      rcases hcond' with h | h
      · exact fun hc => h hc.1
      · exact fun hc => h hc.2
    simp only [avgOf] at hcond
    by_cases hlen : 3 ≤ b.recentAmounts.length
    · simp [CircuitBreaker.check, hstate, hcool, hno, hlen, hcond]
    · simp [CircuitBreaker.check, hstate, hcool, hno, hlen]

/-- A breaker that is not open, passes the rate guard, and has fewer than
3 samples or a non-positive average, allows the payment: the anomaly guard
only engages with at least 3 samples and a strictly positive mean. -/
theorem check_allows_without_engagement (c : CircuitBreaker) (now amt : Int)
    (hstate : c.state ≠ .opened)
    (hrate : (c.recentTimestamps.filter (fun t => now - 60000 < t)).length
      < c.config.maxPaymentsPerMinute)
    (hguard : c.recentAmounts.length < 3 ∨ avgOf c.recentAmounts ≤ 0) :
    (c.check now amt).2.allowed = true := by
  have hsb : (c.state == CircuitState.opened) = false := by
    simpa using hstate
  have hno : ¬(c.config.maxPaymentsPerMinute
      ≤ (c.recentTimestamps.filter (fun t => now - 60000 < t)).length) :=
    not_le.mpr hrate
  rcases hguard with h3 | hpos
  · have h3' : ¬(3 ≤ c.recentAmounts.length) := not_le.mpr h3
    simp [CircuitBreaker.check, hsb, hno, h3']
  · have hcond : ¬(0 < avgOf c.recentAmounts ∧
        avgOf c.recentAmounts * c.config.anomalyMultiplier < amt) :=
      fun hc => absurd hc.1 (not_lt.mpr hpos)
    simp only [avgOf] at hcond
    by_cases hlen : 3 ≤ c.recentAmounts.length
    · simp [CircuitBreaker.check, hsb, hno, hlen, hcond]
    · simp [CircuitBreaker.check, hsb, hno, hlen]

/-- C2: a closed breaker with `k ≥ 3` recorded amounts all equal to `A > 0`
denies a check of `x > A × multiplier` with the anomaly reason and opens;
once the cooldown has elapsed, the next (rate-passing, non-anomalous)
check half-opens and is allowed; `recordFailure` while half-open re-opens;
`recordSuccess` while half-open closes and clears the trip reason; and in
general the anomaly guard only engages when at least 3 amounts exist and
their mean is strictly positive. -/
theorem circuitBreaker_anomaly_scenario (b : CircuitBreaker)
    (A x y z : Int) (k : Nat) (t1 t2 t3 : Int)
    (hstate : b.state = .closed)
    (hk : 3 ≤ k)
    (hA : 0 < A)
    (hamounts : b.recentAmounts = List.replicate k A)
    (hrate : (b.recentTimestamps.filter (fun t => t1 - 60000 < t)).length
      < b.config.maxPaymentsPerMinute)
    (hx : A * b.config.anomalyMultiplier < x)
    (hcool : b.config.cooldownMs ≤ t2 - t1)
    (hy : y ≤ A * b.config.anomalyMultiplier) :
    ((b.check t1 x).2.allowed = false ∧
     (b.check t1 x).2.reason = anomalyReason x b.config.anomalyMultiplier A ∧
     (b.check t1 x).1.state = .opened) ∧
    (((b.check t1 x).1.check t2 y).2.allowed = true ∧
     ((b.check t1 x).1.check t2 y).1.state = .halfOpen) ∧
    ((((b.check t1 x).1.check t2 y).1.recordFailure t3).state = .opened) ∧
    ((((b.check t1 x).1.check t2 y).1.recordSuccess t3 z).state = .closed ∧
     (((b.check t1 x).1.check t2 y).1.recordSuccess t3 z).lastTripReason = "") ∧
    (∀ (c : CircuitBreaker) (now amt : Int), c.state ≠ .opened →
      (c.recentTimestamps.filter (fun t => now - 60000 < t)).length
        < c.config.maxPaymentsPerMinute →
      (c.recentAmounts.length < 3 ∨ avgOf c.recentAmounts ≤ 0) →
      (c.check now amt).2.allowed = true) := by
  have hk0 : k ≠ 0 := by omega
  have havgr : avgOf b.recentAmounts = A := by
    rw [hamounts, avgOf_replicate k A hk0]
  have hlen : 3 ≤ b.recentAmounts.length := by
    rw [hamounts, List.length_replicate]; exact hk
  have hstep1 := check_trips_on_anomaly b t1 x hstate hrate hlen
    (by rw [havgr]; exact hA) (by rw [havgr]; exact hx)
  -- the breaker after the anomaly trip
  have hb1eq : (b.check t1 x).1 = { b with
      state := .opened
      recentTimestamps := b.recentTimestamps.filter (fun t => t1 - 60000 < t)
      trippedAt := t1
      lastTripReason := anomalyReason x b.config.anomalyMultiplier A } := by
    rw [hstep1, havgr]
  have hrate2 : ((b.check t1 x).1.recentTimestamps.filter
      (fun t => t2 - 60000 < t)).length
      < (b.check t1 x).1.config.maxPaymentsPerMinute := by
    rw [hb1eq]
    exact lt_of_le_of_lt (List.length_filter_le _ _) hrate
  have hstep2 := check_halfopens_after_cooldown (b.check t1 x).1 t2 y
    (by rw [hb1eq]) (by rw [hb1eq]; simpa using hcool) hrate2
    (by
      right; right
      rw [hb1eq]
      show ¬(avgOf b.recentAmounts * b.config.anomalyMultiplier < y)
      rw [havgr]
      exact not_lt.mpr hy)
  refine ⟨⟨?_, ?_, ?_⟩, ⟨?_, ?_⟩, ?_, ⟨?_, ?_⟩, ?_⟩
  · rw [hstep1]
  · rw [hstep1, havgr]
  · rw [hb1eq]
  · rw [hstep2]
  · rw [hstep2]
  · rw [hstep2]
    simp [CircuitBreaker.recordFailure, CircuitBreaker.trip]
  · rw [hstep2]
    simp [CircuitBreaker.recordSuccess]
  · rw [hstep2]
    simp [CircuitBreaker.recordSuccess]
  · exact check_allows_without_engagement

/-- Concrete breaker for the C2 witness: closed, three successes of 100
base units recorded shortly before the scenario begins. -/
def c2b : CircuitBreaker :=
  { state := .closed
    config := DEFAULT_CONFIG
    recentTimestamps := [0, 0, 0]
    recentAmounts := [100, 100, 100]
    trippedAt := 0
    lastTripReason := "" }

/-- C2 witness: the full scenario at concrete times and amounts (trip at
1001 > 100 × 10 at time 1000, probe of 500 at time 61000 after the
60-second cooldown, probe outcome at time 61500). -/
theorem circuitBreaker_anomaly_scenario_witness :
    ((c2b.check 1000 1001).2.allowed = false ∧
     (c2b.check 1000 1001).2.reason
       = anomalyReason 1001 c2b.config.anomalyMultiplier 100 ∧
     (c2b.check 1000 1001).1.state = .opened) ∧
    (((c2b.check 1000 1001).1.check 61000 500).2.allowed = true ∧
     ((c2b.check 1000 1001).1.check 61000 500).1.state = .halfOpen) ∧
    ((((c2b.check 1000 1001).1.check 61000 500).1.recordFailure 61500).state
      = .opened) ∧
    ((((c2b.check 1000 1001).1.check 61000 500).1.recordSuccess 61500 7).state
      = .closed ∧
     (((c2b.check 1000 1001).1.check 61000 500).1.recordSuccess 61500 7).lastTripReason
      = "") ∧
    (∀ (c : CircuitBreaker) (now amt : Int), c.state ≠ .opened →
      (c.recentTimestamps.filter (fun t => now - 60000 < t)).length
        < c.config.maxPaymentsPerMinute →
      (c.recentAmounts.length < 3 ∨ avgOf c.recentAmounts ≤ 0) →
      (c.check now amt).2.allowed = true) :=
  circuitBreaker_anomaly_scenario c2b 100 1001 500 7 3 1000 61000 61500
    rfl (by decide) (by decide) rfl (by decide) (by decide) (by decide)
    (by decide)

/-! ## C5: window bounds under recordSuccess

The claim says both sliding windows stay bounded by the configured window
size after each `recordSuccess`.  The source only bounds the amounts
window (`recentAmounts.shift()` past `recentWindowSize`); nothing bounds
`recentTimestamps` in `recordSuccess` — that list is only trimmed by age
inside `check`.  The claim is therefore refuted below and the amended
statement (amounts window bounded, timestamps appended unboundedly)
proved. -/

/-- A breaker that has absorbed 21 successes (default window size 20). -/
def c5after : CircuitBreaker :=
  (List.range 21).foldl (fun b t => b.recordSuccess (t : Int) 1) {}

set_option maxRecDepth 4000 in
/-- C5 counterexample: after 21 `recordSuccess` calls on a default breaker
(window size 20), the recent-timestamp window holds 21 entries — more than
the configured window size — so the claim that each window's length stays
at most the window size after each `recordSuccess` is false. -/
theorem recordSuccess_timestamp_window_unbounded :
    ¬(c5after.recentTimestamps.length ≤ c5after.config.recentWindowSize) := by
  decide

/-- C5 (amended): `recordSuccess` keeps the recent-amount window bounded by
the configured window size, evicting the oldest amount when the push would
exceed it, while the recent-timestamp window simply grows by the new
timestamp (it is trimmed by age in `check`, not bounded here). -/
theorem recordSuccess_amount_window_bounded (b : CircuitBreaker)
    (now amount : Int)
    (h : b.recentAmounts.length ≤ b.config.recentWindowSize) :
    (b.recordSuccess now amount).recentAmounts.length
      ≤ b.config.recentWindowSize ∧
    ((b.recentAmounts.length = b.config.recentWindowSize ∧
        0 < b.config.recentWindowSize) →
      (b.recordSuccess now amount).recentAmounts
        = b.recentAmounts.tail ++ [amount]) ∧
    (b.recordSuccess now amount).recentTimestamps
      = b.recentTimestamps ++ [now] := by
  refine ⟨?_, ?_, ?_⟩
  · by_cases hs : (b.state == CircuitState.halfOpen) <;>
      by_cases hw : b.config.recentWindowSize < b.recentAmounts.length + 1 <;>
        simp [CircuitBreaker.recordSuccess, hs, hw, List.length_tail] <;>
          omega
  · rintro ⟨hlen, hpos⟩
    have hne : b.recentAmounts ≠ [] := by
      intro hnil
      rw [hnil] at hlen
      simp at hlen
      omega
    have hw : b.config.recentWindowSize < b.recentAmounts.length + 1 := by
      omega
    by_cases hs : (b.state == CircuitState.halfOpen) <;>
      simp [CircuitBreaker.recordSuccess, hs, hw,
            List.tail_append_singleton_of_ne_nil hne]
  · by_cases hs : (b.state == CircuitState.halfOpen) <;>
      by_cases hw : b.config.recentWindowSize < b.recentAmounts.length + 1 <;>
        simp [CircuitBreaker.recordSuccess, hs, hw]

/-- Concrete breaker for the C5 witness: window size 2, already full. -/
def c5b : CircuitBreaker :=
  { state := .closed
    config := { maxPaymentsPerMinute := 50, anomalyMultiplier := 10
                cooldownMs := 60000, recentWindowSize := 2 }
    recentTimestamps := [10, 20]
    recentAmounts := [5, 6]
    trippedAt := 0
    lastTripReason := "" }

/-- C5 (amended) witness: pushing a third amount into a full window of
size 2 keeps the bound, evicts the oldest amount, and appends the
timestamp. -/
theorem recordSuccess_amount_window_bounded_witness :
    (c5b.recordSuccess 30 7).recentAmounts.length
      ≤ c5b.config.recentWindowSize ∧
    ((c5b.recentAmounts.length = c5b.config.recentWindowSize ∧
        0 < c5b.config.recentWindowSize) →
      (c5b.recordSuccess 30 7).recentAmounts
        = c5b.recentAmounts.tail ++ [7]) ∧
    (c5b.recordSuccess 30 7).recentTimestamps
      = c5b.recentTimestamps ++ [30] :=
  recordSuccess_amount_window_bounded c5b 30 7 (by decide)

/-! ## C3: outgoing checks run in order, first failure wins -/

/-- C3: `evaluateOutgoing` returns the denial of the first failing check of
the ordered list (per-transaction limit, block-list, allow-list, window
total, window count); in particular a request whose amount exceeds the
per-transaction limit and whose recipient is also blocked is denied with
the per-transaction reason, not the blocked-recipient reason. -/
theorem evaluateOutgoing_first_failure_wins (policy : PaymentPolicy)
    (records : List PaymentRecord) (now : Int)
    (request : OutgoingPaymentRequest) :
    evaluateOutgoing policy records now request
      = firstFailure (outgoingChecks policy records now request) ∧
    (policy.outgoing.maxPerTransaction < request.amount →
      containsCaseInsensitive policy.outgoing.blockedRecipients
        request.recipient = true →
      evaluateOutgoing policy records now request
        = deny (perTransactionReason request.amount
            policy.outgoing.maxPerTransaction)) := by
  constructor
  · simp only [evaluateOutgoing, outgoingChecks, firstFailure, decide_eq_true_eq]
  · intro h1 _h2
    simp [evaluateOutgoing, h1]

/-- Concrete policy for the C3 witness: low per-transaction limit and a
block-list entry for the same recipient. -/
def c3Policy : PaymentPolicy :=
  { outgoing :=
      { maxPerTransaction := 100, maxTotal := 1000000
        windowMs := 86400000, maxTransactions := 100
        allowedRecipients := [], blockedRecipients := ["0xBAD"] }
    incoming := { minPerTransaction := 0, allowedSenders := [], blockedSenders := [] } }

/-- Concrete request for the C3 witness: amount over the limit and a
recipient on the block-list up to case. -/
def c3Request : OutgoingPaymentRequest :=
  { amount := 200, recipient := "0xbad", resource := "https://api.example.com/data" }

/-- C3 witness: on the concrete policy and request both checks fail, and
the result carries the per-transaction reason. -/
theorem evaluateOutgoing_first_failure_wins_witness :
    evaluateOutgoing c3Policy [] 0 c3Request
      = firstFailure (outgoingChecks c3Policy [] 0 c3Request) ∧
    evaluateOutgoing c3Policy [] 0 c3Request
      = deny (perTransactionReason 200 100) :=
  ⟨(evaluateOutgoing_first_failure_wins c3Policy [] 0 c3Request).1,
   (evaluateOutgoing_first_failure_wins c3Policy [] 0 c3Request).2
     (by decide) (by decide)⟩

/-- Concrete record for the C4 witness: confirmed outgoing in-window. -/
def c4r1 : PaymentRecord :=
  { id := "a", direction := .outgoing, counterparty := "0xaa", amount := 100
    network := "eip155:8453", txHash := "", resource := "r", status := .confirmed
    createdAt := 1500, metadata := [] }

/-- Concrete record for the C4 witness: failed outgoing in-window (must be
excluded). -/
def c4r2 : PaymentRecord :=
  { c4r1 with id := "b", amount := 200, status := .failed }

/-- Concrete record for the C4 witness: pending outgoing in-window. -/
def c4r3 : PaymentRecord :=
  { c4r1 with id := "c", amount := 400, status := .pending }

/-- Concrete record for the C4 witness: confirmed but out of the window. -/
def c4r4 : PaymentRecord :=
  { c4r1 with id := "d", amount := 800, createdAt := 900 }

/-- C4 witness: the aggregation equations at a concrete store, window and
scope (the hypotheses are discharged at `some 1000 ≠ some 0` and
`some "0xaa" ≠ some ""`). -/
theorem getTotal_getCount_aggregate_spec_witness :
    (some (1000 : Int) ≠ some (0 : Int)) ∧ (some "0xaa" ≠ some "") ∧
    (getTotal [c4r1, c4r2, c4r3, c4r4] 2000 .outgoing (some 1000) (some "0xaa")
      = (([c4r1, c4r2, c4r3, c4r4].filter
          (matchesAggregate .outgoing 2000 (some 1000) (some "0xaa"))).map
            PaymentRecord.amount).sum ∧
     getCount [c4r1, c4r2, c4r3, c4r4] 2000 .outgoing (some 1000)
      = ([c4r1, c4r2, c4r3, c4r4].filter
          (matchesAggregate .outgoing 2000 (some 1000) none)).length) :=
  ⟨by decide, by decide,
   getTotal_getCount_aggregate_spec [c4r1, c4r2, c4r3, c4r4] 2000 .outgoing
     (some 1000) (some "0xaa") (by decide) (by decide)⟩

/-! ## C7: client denials return the original response with no side effects -/

/-- C7: when the outgoing-policy evaluation denies the payment — and
likewise when no offered requirement matches the signer's network, or the
circuit breaker denies — the interceptor returns the original 402 response
unchanged, never invokes the signer, issues no retry request, and writes no
ledger record. -/
theorem fetchWithPayment_denial_no_side_effects (env : FetchEnv)
    (pr : PaymentRequiredResponse)
    (h402 : env.initialResponse.status = 402)
    (hparsed : env.parsed = some pr)
    (hne : pr.accepts.length ≠ 0) :
    (selectPaymentOption pr.accepts env.signerNetworkId = none →
      (fetchWithPayment env).response = env.initialResponse ∧
      (fetchWithPayment env).signerInvoked = false ∧
      (fetchWithPayment env).retryIssued = false ∧
      (fetchWithPayment env).recorded = []) ∧
    (∀ req, selectPaymentOption pr.accepts env.signerNetworkId = some req →
      (evaluateOutgoing env.policy env.records env.now
        { amount := req.maxAmountRequired, recipient := req.payTo,
          resource := env.url }).allowed = false →
      (fetchWithPayment env).response = env.initialResponse ∧
      (fetchWithPayment env).signerInvoked = false ∧
      (fetchWithPayment env).retryIssued = false ∧
      (fetchWithPayment env).recorded = []) ∧
    (∀ req, selectPaymentOption pr.accepts env.signerNetworkId = some req →
      (evaluateOutgoing env.policy env.records env.now
        { amount := req.maxAmountRequired, recipient := req.payTo,
          resource := env.url }).allowed = true →
      (env.breaker.check env.now req.maxAmountRequired).2.allowed = false →
      (fetchWithPayment env).response = env.initialResponse ∧
      (fetchWithPayment env).signerInvoked = false ∧
      (fetchWithPayment env).retryIssued = false ∧
      (fetchWithPayment env).recorded = []) := by
  refine ⟨fun hsel => ?_, fun req hsel hpol => ?_, fun req hsel hpol hbrk => ?_⟩
  · simp [fetchWithPayment, originalOutcome, h402, hparsed, hne, hsel]
  · simp [fetchWithPayment, originalOutcome, h402, hparsed, hne, hsel, hpol]
  · simp [fetchWithPayment, originalOutcome, h402, hparsed, hne, hsel, hpol,
          hbrk]

/-- Concrete requirement offered by the server in the C7 witness: 200 base
units, above the engine's 100-unit per-transaction limit. -/
def c7req : PaymentRequirement :=
  { scheme := "upto", network := "eip155:8453", maxAmountRequired := 200
    resource := "https://api.example.com/data", description := "d"
    mimeType := "application/json", payTo := "0xserver"
    maxTimeoutSeconds := 300, asset := "0xusdc", extra := [] }

/-- Concrete interceptor environment for the C7 witness (the policy is the
C3 one, whose per-transaction limit is 100). -/
def c7env : FetchEnv :=
  { url := "https://api.example.com/data"
    initialResponse := { status := 402, body := "payment required" }
    parsed := some { x402Version := 2, accepts := [c7req] }
    signerNetworkId := "eip155:8453"
    policy := c3Policy
    records := []
    breaker := {}
    now := 0
    signResult := Except.ok "proof"
    retryResult := Except.ok { status := 200, body := "data" }
    recordId := "x402_test" }

/-- C7 witness: on the concrete environment the policy denies (200 over
the 100 limit) and the interceptor returns the original response with no
signing, no retry and no record, even though signing and retry would have
succeeded. -/
theorem fetchWithPayment_denial_no_side_effects_witness :
    (fetchWithPayment c7env).response = c7env.initialResponse ∧
    (fetchWithPayment c7env).signerInvoked = false ∧
    (fetchWithPayment c7env).retryIssued = false ∧
    (fetchWithPayment c7env).recorded = [] :=
  (fetchWithPayment_denial_no_side_effects c7env
      { x402Version := 2, accepts := [c7req] } rfl rfl (by decide)).2.1
    c7req rfl (by decide)


/-! ## C8: paywall challenge and downstream-handler invocation -/

/-- The versioned challenge envelope the middleware builds for a request:
the requirement template bound to the current resource path, wrapped in
`{x402Version: 2, accepts: [...]}`. -/
def challengeOf (config : PaywallConfig) (networkInfo : NetworkInfo)
    (url : Option String) : PaymentRequiredResponse :=
  { x402Version := 2
    accepts := [{ requirementTemplate config networkInfo with
      resource := url.getD "/" }] }

/-- C8: when the payment-proof header is absent (case-insensitive lookup),
the middleware responds 402 with a JSON error body, sets the base64-encoded
versioned challenge in both the canonical `Payment-Required` and the alias
`x-402` header, and never invokes the downstream handler; when the header
is present and verification succeeds, the handler is invoked exactly once
regardless of the settlement outcome, and the recorded incoming record has
status `confirmed` when settlement succeeded and `pending` otherwise. -/
theorem paywall_challenge_and_handler (config : PaywallConfig)
    (networkInfo : NetworkInfo) (env : PaywallEnv) :
    (getHeaderValue env.headers "x-payment" = none →
      (paywallMiddleware config networkInfo env).statusSet = some 402 ∧
      (paywallMiddleware config networkInfo env).body
        = some (.paymentRequired config.description) ∧
      (paywallMiddleware config networkInfo env).headersSet
        = [("Payment-Required",
            env.encode (challengeOf config networkInfo env.url)),
           ("x-402",
            env.encode (challengeOf config networkInfo env.url))] ∧
      (paywallMiddleware config networkInfo env).nextInvocations = 0) ∧
    (∀ hdr, getHeaderValue env.headers "x-payment" = some hdr → hdr ≠ "" →
      env.verifyResult.valid = true →
      (paywallMiddleware config networkInfo env).nextInvocations = 1 ∧
      (∀ payer, env.hasStorage = true → env.verifyResult.payer = some payer →
        payer ≠ "" →
        (paywallMiddleware config networkInfo env).recorded
          = [{ id := env.recordId
               direction := .incoming
               counterparty := payer
               amount := config.amount
               network := networkInfo.caip2
               txHash := env.settleResult.txHash.getD ""
               resource := env.url.getD "/"
               status :=
                 if env.settleResult.success then .confirmed else .pending
               createdAt := env.now
               metadata := [] }])) := by
  constructor
  · intro habs
    simp [paywallMiddleware, habs, headerIsBlank, challengeOf,
          requirementTemplate]
  · intro hdr hhdr hne hvalid
    have hblank : headerIsBlank (getHeaderValue env.headers "x-payment") = false := by
      simp [hhdr, headerIsBlank, hne]
    constructor
    · simp [paywallMiddleware, hblank, hvalid]
    · intro payer hstor hpayer hpne
      simp [paywallMiddleware, hblank, hvalid, hstor, hpayer, hpne]

/-- Concrete paywall configuration for the C8 witness. -/
def c8config : PaywallConfig :=
  { payTo := "0xme", facilitatorUrl := "https://fac.example", amount := 50000
    description := "premium data", mimeType := "application/json"
    maxTimeoutSeconds := 300 }

/-- Concrete network for the C8 witness. -/
def c8net : NetworkInfo :=
  { caip2 := "eip155:8453", chainId := 8453, name := "Base"
    usdcAddress := "0xusdc", usdcDomainName := "USDC", usdcPermitVersion := "2" }

/-- Concrete environment for the C8 witness: proof header present (mixed
case), verification valid with a payer, settlement failed. -/
def c8env : PaywallEnv :=
  { headers := [("X-Payment", .str "proofdata")]
    url := some "/paid"
    verifyResult := { valid := true, payer := some "0xpayer" }
    settleResult := { success := false, reason := some "insufficient funds" }
    hasStorage := true
    recordId := "x402_in_1"
    now := 1234
    encode := fun _ => "ZW5jb2RlZA" }

/-- C8 environment with no proof header, for the challenge half of the
witness. -/
def c8envNoHeader : PaywallEnv :=
  { c8env with headers := [("accept", .str "application/json")] }

/-- C8 witness: without the header the concrete middleware sets 402 plus
both challenge headers and never calls the handler; with the header and a
valid proof it calls the handler once and records a `pending` incoming
payment (settlement failed). -/
theorem paywall_challenge_and_handler_witness :
    ((paywallMiddleware c8config c8net c8envNoHeader).statusSet = some 402 ∧
     (paywallMiddleware c8config c8net c8envNoHeader).body
       = some (.paymentRequired c8config.description) ∧
     (paywallMiddleware c8config c8net c8envNoHeader).headersSet
       = [("Payment-Required",
           c8envNoHeader.encode (challengeOf c8config c8net c8envNoHeader.url)),
          ("x-402",
           c8envNoHeader.encode (challengeOf c8config c8net c8envNoHeader.url))] ∧
     (paywallMiddleware c8config c8net c8envNoHeader).nextInvocations = 0) ∧
    ((paywallMiddleware c8config c8net c8env).nextInvocations = 1 ∧
     (paywallMiddleware c8config c8net c8env).recorded
       = [{ id := c8env.recordId
            direction := .incoming
            counterparty := "0xpayer"
            amount := c8config.amount
            network := c8net.caip2
            txHash := c8env.settleResult.txHash.getD ""
            resource := c8env.url.getD "/"
            status :=
              if c8env.settleResult.success then .confirmed else .pending
            createdAt := c8env.now
            metadata := [] }]) :=
  ⟨(paywall_challenge_and_handler c8config c8net c8envNoHeader).1 (by decide),
   ((paywall_challenge_and_handler c8config c8net c8env).2 "proofdata"
       (by decide) (by decide) rfl).1,
   ((paywall_challenge_and_handler c8config c8net c8env).2 "proofdata"
       (by decide) (by decide) rfl).2 "0xpayer" rfl rfl (by decide)⟩

/-! ## C9: getPolicy is only a per-limb shallow copy -/

/-- Concrete engine policy for C9: array references 0–3, all empty. -/
def c9policy : PaymentPolicyR :=
  { outgoing :=
      { maxPerTransaction := 1000000, maxTotal := 10000000
        windowMs := 86400000, maxTransactions := 100
        allowedRecipients := 0, blockedRecipients := 1 }
    incoming := { minPerTransaction := 0, allowedSenders := 2, blockedSenders := 3 } }

/-- Concrete store for C9: every array empty. -/
def c9store : Store := fun _ => []

/-- Concrete request for C9. -/
def c9req : OutgoingPaymentRequest :=
  { amount := 5, recipient := "0xbad", resource := "r" }

/-- The store after the caller pushes `"0xbad"` into the block-list array
reached through the object returned by `getPolicy`. -/
def c9store2 : Store :=
  pushArr c9store ((getPolicyR c9policy).outgoing.blockedRecipients) "0xbad"

/-- C9 counterexample: mutating the nested block-list array of the object
returned by `getPolicy` changes the outcome of a subsequent
`evaluateOutgoing` (allowed before the push, denied after), so the claim
that such mutation leaves the engine unchanged is false. -/
theorem getPolicy_not_deeply_defensive :
    ¬((evaluateOutgoingR c9policy c9store2 [] 0 c9req).allowed
        = (evaluateOutgoingR c9policy c9store [] 0 c9req).allowed) := by
  decide

/-- C9 (amended): `getPolicy` returns fresh limb objects whose fields —
the nested allow/block array references included — equal the engine's, so
the copy is value-identical to the engine's policy and shares its arrays:
a push through the returned object's array reference appends to the
engine's own array (the mutation is visible to subsequent evaluations, as
the counterexample shows); only the limb objects themselves are fresh. -/
theorem getPolicy_shallow_copy_aliases_arrays (p : PaymentPolicyR)
    (σ : Store) (x : String) :
    getPolicyR p = p ∧
    readArr (pushArr σ ((getPolicyR p).outgoing.blockedRecipients) x)
        p.outgoing.blockedRecipients
      = readArr σ p.outgoing.blockedRecipients ++ [x] := by
  have hcopy : getPolicyR p = p := by
    rcases p with ⟨⟨a, b, c, d, e, f⟩, ⟨g, h, i⟩⟩
    rfl
  refine ⟨hcopy, ?_⟩
  rw [hcopy]
  simp [readArr, pushArr]

/-! ## C10: scope matching is exact in totals, case-insensitive in queries -/

/-- C10: in both the memory backend and the SQL backends (SQLite and
PostgreSQL share the modelled WHERE clauses), a stored record whose
counterparty differs from the scope argument only in letter case is
excluded from `getTotal`, while `getRecords` with the same counterparty
filter returns it. -/
theorem scope_exact_in_totals_insensitive_in_queries (r : PaymentRecord)
    (s : String) (now : Int)
    (hcase : lowerString r.counterparty = lowerString s)
    (hne : r.counterparty ≠ s)
    (hs : s ≠ "") :
    getTotal [r] now r.direction none (some s) = 0 ∧
    sqlGetTotal [r] now r.direction none (some s) = 0 ∧
    getRecords [r] { counterparty := some s } = [r] ∧
    sqlGetRecords [r] { counterparty := some s } = [r] := by
  refine ⟨?_, ?_, ?_, ?_⟩
  · simp [getTotal, totalStep, skipByScope, windowCutoff, skipByCutoff,
          hs, hne]
  · simp [sqlGetTotal, sqlTotalFilter, hs, hne]
  · simp [getRecords, memoryRecordsFilter, sortByNewest, insertByNewest,
          hs, hcase]
  · simp [sqlGetRecords, sqlRecordsFilter, sortByNewest, insertByNewest,
          hs, hcase]

/-- Concrete record for the C10 witness: counterparty `"0xAB"`, queried
with scope `"0xab"`. -/
def c10r : PaymentRecord :=
  { id := "w", direction := .outgoing, counterparty := "0xAB", amount := 100
    network := "n", txHash := "", resource := "", status := .confirmed
    createdAt := 10, metadata := [] }

/-- C10 witness: the concrete record is excluded from both totals but
returned by both queries. -/
theorem scope_exact_in_totals_insensitive_in_queries_witness :
    getTotal [c10r] 0 c10r.direction none (some "0xab") = 0 ∧
    sqlGetTotal [c10r] 0 c10r.direction none (some "0xab") = 0 ∧
    getRecords [c10r] { counterparty := some "0xab" } = [c10r] ∧
    sqlGetRecords [c10r] { counterparty := some "0xab" } = [c10r] :=
  scope_exact_in_totals_insensitive_in_queries c10r "0xab" 0
    (by decide) (by decide) (by decide)

end X402
